import Mathlib

/-!
# Verification of `scripts/pdf_to_text.py`

A shallow embedding of the PDF-to-text batch converter.  The program is a
command-line utility that scans an input directory for `*.pdf` files, extracts
each page's text through the PyMuPDF library, joins the page chunks with a
configurable separator and writes the result to `<output_dir>/<stem>.txt`,
skipping existing outputs unless `--overwrite` is given.

The filesystem is modelled explicitly as a record of existing directories,
directory listings and file contents; the PyMuPDF library is modelled as an
oracle `doc : String → Except String (List String)` mapping a PDF path either
to its list of per-page text chunks or to an exception message (covering any
failure while opening or reading the document).  Console output is modelled as
a list of structured messages.  Each Python function becomes a Lean function
on this state.
-/

namespace PdfToText

/-- A console message, one constructor per `print` category of the script.
`skipMsg`/`warn`/`done` go to stdout, `errorMsg`/`dirNotFound`/`noPdfs` to
stderr. -/
inductive Msg where
  /-- `[skip] {output_path} exists (use --overwrite to regenerate)` -/
  | skipMsg (path : String)
  /-- `[warn] Page {page_index} in {pdf_path.name} yielded no text` -/
  | warn (pageIndex : Nat) (fileName : String)
  /-- `[done] {pdf_path.name} -> {output_path}` -/
  | done (fileName : String) (path : String)
  /-- `[error] Failed to process {pdf_path.name}: {error}` (stderr) -/
  | errorMsg (fileName : String) (detail : String)
  /-- `Input directory not found: {pdf_dir}` (stderr) -/
  | dirNotFound (dir : String)
  /-- `No PDF files found under {pdf_dir}` (stderr) -/
  | noPdfs (dir : String)
deriving DecidableEq, Repr

/-- The filesystem state: the set of existing directories, the direct (plain
file) entries of each directory, and file contents keyed by full path.
Subdirectory contents live under their own key of `dirents`, so a directory
listing is non-recursive by construction. -/
structure FS where
  dirs : List String
  dirents : List (String × List String)
  files : List (String × String)
deriving Repr, DecidableEq

/-- `Path.is_dir()`. -/
def FS.isDir (fs : FS) (d : String) : Bool :=
  fs.dirs.contains d

/-- The names of the plain files directly inside directory `d`
(non-recursive; the OS returns them in unspecified order, modelled by the
stored order). -/
def FS.listDir (fs : FS) (d : String) : List String :=
  (fs.dirents.lookup d).getD []

/-- `Path.exists()` for a file path. -/
def FS.fileExists (fs : FS) (p : String) : Bool :=
  (fs.files.lookup p).isSome

/-- Contents of the file at `p`, if any. -/
def FS.readFile (fs : FS) (p : String) : Option String :=
  fs.files.lookup p

/-- `Path.write_text(...)`: create or replace the file at `p`.  The newest
entry is consed in front; `readFile` returns the first match. -/
def FS.writeFile (fs : FS) (p c : String) : FS :=
  { fs with files := (p, c) :: fs.files }

/-- `Path.mkdir(parents=True, exist_ok=True)`: record directory `d` as
existing (idempotent).  Intermediate ancestors are abstracted away since no
part of the program observes them. -/
def FS.mkdirParents (fs : FS) (d : String) : FS :=
  if fs.dirs.contains d then fs else { fs with dirs := d :: fs.dirs }

/-- `Path.name`: the final path component (everything after the last `/`). -/
def nameOf (p : String) : String :=
  String.mk (p.data.reverse.takeWhile (fun c => ¬ c = '/')).reverse

/-- `Path.parent` rendered as a string: everything before the last `/`, or
`"."` when there is no separator. -/
def parentOf (p : String) : String :=
  match p.data.reverse.dropWhile (fun c => ¬ c = '/') with
  | [] => "."
  | _ :: rest => String.mk rest.reverse

/-- `Path.stem`: the final component without its last suffix.  CPython keeps
the whole name when the last dot is at index 0 or at the very end
(`Path(".pdf").stem = ".pdf"`, `Path("a.").stem = "a."`). -/
def stem (p : String) : String :=
  let cs := (nameOf p).data
  match cs.reverse.findIdx? (fun c => c = '.') with
  | none => nameOf p
  | some j =>
    let i := cs.length - 1 - j
    if 0 < i ∧ 0 < j then String.mk (cs.take i) else nameOf p

/-- Whether a filename matches the literal glob pattern `*.pdf`: `*` matches
any (possibly empty) run of characters within one component, so a name
matches exactly when it ends with the four characters `.pdf`, case-sensitively
(pathlib's glob is case-sensitive on a case-sensitive filesystem). -/
def isPdfName (n : String) : Bool :=
  List.isSuffixOf ".pdf".data n.data

/-- Lexicographic `≤` on character lists, comparing code points — exactly how
Python compares strings. -/
def lexLe : List Char → List Char → Bool
  | [], _ => true
  | _ :: _, [] => false
  | a :: as, b :: bs =>
    if a.toNat < b.toNat then true
    else if b.toNat < a.toNat then false
    else lexLe as bs

/-- Python's `s1 <= s2` on strings: lexicographic by code point. -/
def strLe (a b : String) : Bool :=
  lexLe a.data b.data

/-- `strLe` as a binary relation, for use with `List.insertionSort` and
`List.Sorted`. -/
def StrLe (a b : String) : Prop :=
  strLe a b = true

instance : DecidableRel StrLe :=
  fun a b => inferInstanceAs (Decidable (strLe a b = true))

theorem lexLe_total : ∀ as bs : List Char, lexLe as bs = true ∨ lexLe bs as = true
  | [], _ => Or.inl rfl
  | _ :: _, [] => Or.inr rfl
  | a :: as, b :: bs => by
    by_cases hab : a.toNat < b.toNat
    · left; simp [lexLe, hab]
    · by_cases hba : b.toNat < a.toNat
      · right; simp [lexLe, hba]
      · rcases lexLe_total as bs with h | h
        · left; simp [lexLe, hab, hba, h]
        · right; simp [lexLe, hab, hba, h]

theorem lexLe_trans :
    ∀ as bs cs : List Char,
      lexLe as bs = true → lexLe bs cs = true → lexLe as cs = true
  | [], _, _, _, _ => rfl
  | _ :: _, [], _, h1, _ => by simp [lexLe] at h1
  | _ :: _, _ :: _, [], _, h2 => by simp [lexLe] at h2
  | a :: as, b :: bs, c :: cs, h1, h2 => by
    simp only [lexLe] at h1 h2 ⊢
    by_cases hab : a.toNat < b.toNat
    · by_cases hbc : b.toNat < c.toNat
      · simp [show a.toNat < c.toNat by omega]
      · by_cases hcb : c.toNat < b.toNat
        · simp [hbc, hcb] at h2
        · simp [show a.toNat < c.toNat by omega]
    · by_cases hba : b.toNat < a.toNat
      · simp [hab, hba] at h1
      · simp only [if_neg hab, if_neg hba] at h1
        by_cases hbc : b.toNat < c.toNat
        · simp [show a.toNat < c.toNat by omega]
        · by_cases hcb : c.toNat < b.toNat
          · simp [hbc, hcb] at h2
          · simp only [if_neg hbc, if_neg hcb] at h2
            have hac1 : ¬ a.toNat < c.toNat := by omega
            have hac2 : ¬ c.toNat < a.toNat := by omega
            simp only [if_neg hac1, if_neg hac2]
            exact lexLe_trans as bs cs h1 h2

instance : IsTotal String StrLe :=
  ⟨fun a b => lexLe_total a.data b.data⟩

instance : IsTrans String StrLe :=
  ⟨fun a b c => lexLe_trans a.data b.data c.data⟩

/-- `sorted(args.pdf_dir.glob("*.pdf"))`: the plain files directly in
`pdf_dir` whose name matches `*.pdf`, sorted.  The script sorts the full
paths `pdf_dir/name`; as all share the prefix `pdf_dir ++ "/"`, this orders
them lexicographically by filename, modelled here by sorting the names. -/
def scanDir (fs : FS) (d : String) : List String :=
  List.insertionSort StrLe ((fs.listDir d).filter (fun n => isPdfName n))

/-- `extract_text_from_pdf(pdf_path, output_path, insert_page_break,
overwrite)`.  Returns the new filesystem, the console messages printed, and
`some e` when the PDF oracle raised exception `e` (re-raised to the caller);
`none` when the function returned normally. -/
def extract_text_from_pdf (doc : String → Except String (List String))
    (pdf_path output_path : String) (insert_page_break overwrite : Bool)
    (fs : FS) : FS × List Msg × Option String :=
  if fs.fileExists output_path ∧ ¬ overwrite then
    (fs, [Msg.skipMsg output_path], none)
  else
    let fs1 := fs.mkdirParents (parentOf output_path)
    match doc pdf_path with
    | Except.error e => (fs1, [], some e)
    | Except.ok pages =>
      let warns := pages.enum.filterMap (fun it =>
        if it.2.data.all Char.isWhitespace then
          some (Msg.warn (it.1 + 1) (nameOf pdf_path))
        else none)
      let text_content :=
        if insert_page_break then String.intercalate "\n\n---\n\n" pages
        else String.intercalate "\n" pages
      (fs1.writeFile output_path text_content,
       warns ++ [Msg.done (nameOf pdf_path) output_path], none)

/-- `args.output_dir / f"{pdf_path.stem}.txt"`: the target path is a pure
function of the output directory and the source path's stem. -/
def targetPath (output_dir pdf_path : String) : String :=
  output_dir ++ "/" ++ stem pdf_path ++ ".txt"

/-- One iteration of the loop in `main`: compute the target path, run the
conversion, and catch any exception it raised, turning it into an `[error]`
message naming the file. -/
def step (doc : String → Except String (List String))
    (output_dir : String) (page_break overwrite : Bool)
    (fs : FS) (pdf_path : String) : FS × List Msg :=
  match extract_text_from_pdf doc pdf_path (targetPath output_dir pdf_path)
      page_break overwrite fs with
  | (fs1, msgs, none) => (fs1, msgs)
  | (fs1, msgs, some e) => (fs1, msgs ++ [Msg.errorMsg (nameOf pdf_path) e])

/-- The `for pdf_path in pdf_files:` loop of `main`, over full PDF paths in
order. -/
def processAll (doc : String → Except String (List String))
    (output_dir : String) (page_break overwrite : Bool)
    (fs : FS) : List String → FS × List Msg
  | [] => (fs, [])
  | p :: rest =>
    let r1 := step doc output_dir page_break overwrite fs p
    let r2 := processAll doc output_dir page_break overwrite r1.1 rest
    (r2.1, r1.2 ++ r2.2)

/-- `main()` after argument parsing: returns the final filesystem, the
console messages, and the process exit code. -/
def main (doc : String → Except String (List String))
    (pdf_dir output_dir : String) (overwrite page_break : Bool)
    (fs : FS) : FS × List Msg × Nat :=
  if ¬ fs.isDir pdf_dir then
    (fs, [Msg.dirNotFound pdf_dir], 1)
  else
    let pdf_files := scanDir fs pdf_dir
    if pdf_files = [] then
      (fs, [Msg.noPdfs pdf_dir], 1)
    else
      let r := processAll doc output_dir page_break overwrite fs
        (pdf_files.map (fun n => pdf_dir ++ "/" ++ n))
      (r.1, r.2, 0)

/-- Number of (possibly overlapping) occurrences of the pattern `pat` in the
character list `s`: the number of positions where `pat` starts. -/
def countOccs (pat s : List Char) : Nat :=
  (List.range (s.length + 1)).countP (fun i => pat.isPrefixOf (s.drop i))

/-! ## Basic filesystem lemmas -/

theorem FS.files_mkdirParents (fs : FS) (d : String) :
    (fs.mkdirParents d).files = fs.files := by
  unfold mkdirParents; split <;> rfl

theorem FS.dirents_mkdirParents (fs : FS) (d : String) :
    (fs.mkdirParents d).dirents = fs.dirents := by
  unfold mkdirParents; split <;> rfl

theorem FS.readFile_mkdirParents (fs : FS) (d p : String) :
    (fs.mkdirParents d).readFile p = fs.readFile p := by
  unfold FS.readFile
  rw [fs.files_mkdirParents d]

theorem FS.readFile_writeFile (fs : FS) (p c : String) :
    (fs.writeFile p c).readFile p = some c := by
  simp [FS.readFile, FS.writeFile, List.lookup]

/-! ## Fixtures used to instantiate theorems with hypotheses -/

/-- A concrete PDF oracle: `a.pdf` has two text pages, `b.pdf` has an empty
page followed by a text page, `bad.pdf` raises. -/
def exDoc : String → Except String (List String)
  | "in/a.pdf" => Except.ok ["Hello", "World"]
  | "in/b.pdf" => Except.ok ["", "text"]
  | "in/bad.pdf" => Except.error "broken"
  | _ => Except.ok []

/-- A concrete input filesystem: directory `in` with a mix of entries. -/
def exFS : FS :=
  ⟨["in"], [("in", ["b.pdf", "a.pdf", "sub", "Report.PDF", "notes.txt"])], []⟩

/-- A filesystem whose `out/a.txt` already exists. -/
def exFSout : FS :=
  ⟨["in", "out"], [("in", ["a.pdf"])], [("out/a.txt", "old contents")]⟩

/-- The empty filesystem. -/
def fs0 : FS := ⟨[], [], []⟩

/-! ## Unfolding lemmas for the converter and the batch loop -/

/-- When the conversion is not skipped and the oracle yields `pages`, the
converter creates the parent directory, writes the joined chunks, and prints
the per-page warnings followed by the success notice. -/
theorem extract_ok (doc : String → Except String (List String))
    (pdf_path output_path : String) (pb ow : Bool) (fs : FS) (pages : List String)
    (hdoc : doc pdf_path = Except.ok pages)
    (hns : fs.fileExists output_path = false ∨ ow = true) :
    extract_text_from_pdf doc pdf_path output_path pb ow fs
      = ((fs.mkdirParents (parentOf output_path)).writeFile output_path
           (if pb then String.intercalate "\n\n---\n\n" pages
            else String.intercalate "\n" pages),
         pages.enum.filterMap (fun it =>
           if it.2.data.all Char.isWhitespace then
             some (Msg.warn (it.1 + 1) (nameOf pdf_path))
           else none) ++ [Msg.done (nameOf pdf_path) output_path],
         none) := by
  unfold extract_text_from_pdf
  rcases hns with h | h <;> simp [h, hdoc]

/-- When the conversion is not skipped and the oracle raises `e`, the
converter has only created the parent directory and re-raises `e`. -/
theorem extract_error (doc : String → Except String (List String))
    (pdf_path output_path : String) (pb ow : Bool) (fs : FS) (e : String)
    (herr : doc pdf_path = Except.error e)
    (hns : fs.fileExists output_path = false ∨ ow = true) :
    extract_text_from_pdf doc pdf_path output_path pb ow fs
      = (fs.mkdirParents (parentOf output_path), [], some e) := by
  unfold extract_text_from_pdf
  rcases hns with h | h <;> simp [h, herr]

/-- A loop iteration whose conversion raises turns the exception into an
`[error]` message naming the file. -/
theorem step_error (doc : String → Except String (List String))
    (od : String) (pb ow : Bool) (fs : FS) (p e : String)
    (herr : doc p = Except.error e)
    (hns : fs.fileExists (targetPath od p) = false ∨ ow = true) :
    step doc od pb ow fs p
      = (fs.mkdirParents (parentOf (targetPath od p)),
         [Msg.errorMsg (nameOf p) e]) := by
  unfold step
  rw [extract_error doc p (targetPath od p) pb ow fs e herr hns]
  rfl

/-- The batch loop over a concatenation is the loop over the first part
followed by the loop over the second, messages appended. -/
theorem processAll_append (doc : String → Except String (List String))
    (od : String) (pb ow : Bool) (xs ys : List String) (fs : FS) :
    processAll doc od pb ow fs (xs ++ ys)
      = ((processAll doc od pb ow (processAll doc od pb ow fs xs).1 ys).1,
         (processAll doc od pb ow fs xs).2
           ++ (processAll doc od pb ow (processAll doc od pb ow fs xs).1 ys).2) := by
  induction xs generalizing fs with
  | nil => simp [processAll]
  | cons q xs ih => simp [processAll, ih, List.append_assoc]

/-! ## Claim theorems -/

/-- **C2.** The process exits with status 1 exactly when a pre-flight
condition fails — the input directory does not exist, or it contains no
`.pdf` files — and then the filesystem is untouched (no conversion is
attempted); every other run exits 0 (the only possible codes being 0 and 1)
after running the batch loop over all discovered files. -/
theorem c2_exit_code_iff_preflight
    (doc : String → Except String (List String)) (pdf_dir output_dir : String)
    (ow pb : Bool) (fs : FS) :
    ((main doc pdf_dir output_dir ow pb fs).2.2 = 1
      ↔ (fs.isDir pdf_dir = false ∨ scanDir fs pdf_dir = []))
    ∧ ((main doc pdf_dir output_dir ow pb fs).2.2 = 1
        → (main doc pdf_dir output_dir ow pb fs).1 = fs)
    ∧ ((main doc pdf_dir output_dir ow pb fs).2.2 = 0
        ∨ (main doc pdf_dir output_dir ow pb fs).2.2 = 1) := by
  unfold main
  by_cases hd : fs.isDir pdf_dir
  · by_cases hne : scanDir fs pdf_dir = [] <;> simp [hd, hne]
  · simp [Bool.not_eq_true] at hd
    simp [hd]

/-- Witness for C2 at a concrete run that passes pre-flight. -/
theorem c2_exit_code_iff_preflight_witness :
    ((main exDoc "in" "out" false false exFS).2.2 = 1
      ↔ (exFS.isDir "in" = false ∨ scanDir exFS "in" = []))
    ∧ ((main exDoc "in" "out" false false exFS).2.2 = 1
        → (main exDoc "in" "out" false false exFS).1 = exFS)
    ∧ ((main exDoc "in" "out" false false exFS).2.2 = 0
        ∨ (main exDoc "in" "out" false false exFS).2.2 = 1) :=
  c2_exit_code_iff_preflight exDoc "in" "out" false false exFS

/-- **C4.** When the target path already exists and the overwrite flag is
false, the conversion returns the filesystem entirely unchanged (so no file
or directory is created or modified and the existing output keeps its bytes),
emits exactly the skip notice, and raises nothing. -/
theorem c4_skip_is_noop
    (doc : String → Except String (List String)) (pdf_path output_path : String)
    (page_break : Bool) (fs : FS)
    (hex : fs.fileExists output_path = true) :
    extract_text_from_pdf doc pdf_path output_path page_break false fs
      = (fs, [Msg.skipMsg output_path], none) := by
  unfold extract_text_from_pdf
  simp [hex]

/-- Witness for C4: a second conversion of `a.pdf` into an existing
`out/a.txt` is a pure skip. -/
theorem c4_skip_is_noop_witness :
    exFSout.fileExists "out/a.txt" = true
    ∧ extract_text_from_pdf exDoc "in/a.pdf" "out/a.txt" false false exFSout
        = (exFSout, [Msg.skipMsg "out/a.txt"], none) :=
  ⟨rfl, c4_skip_is_noop exDoc "in/a.pdf" "out/a.txt" false exFSout rfl⟩

/-- **C6.** The target path is the pure function
`<output_dir>/<source_stem>.txt` of the output directory and the input
path's stem, so two inputs with equal stems map to the same output path. -/
theorem c6_target_path_pure (output_dir p1 p2 : String)
    (h : stem p1 = stem p2) :
    targetPath output_dir p1 = output_dir ++ "/" ++ stem p1 ++ ".txt"
    ∧ targetPath output_dir p1 = targetPath output_dir p2 := by
  exact ⟨rfl, by simp [targetPath, h]⟩

/-- Witness for C6: `report.pdf` and `report.PDF` share the stem `report`
and therefore collide on `out/report.txt`. -/
theorem c6_target_path_pure_witness :
    stem "in/report.pdf" = stem "in/report.PDF"
    ∧ (targetPath "out" "in/report.pdf" = "out" ++ "/" ++ stem "in/report.pdf" ++ ".txt"
       ∧ targetPath "out" "in/report.pdf" = targetPath "out" "in/report.PDF") :=
  ⟨by decide, c6_target_path_pure "out" "in/report.pdf" "in/report.PDF" (by decide)⟩

/-- **C8.** When a pre-flight condition fails (input directory missing, or
no `.pdf` files in it), `main` returns the filesystem unchanged: no output
directory is created and no output file is written. -/
theorem c8_preflight_no_side_effects
    (doc : String → Except String (List String)) (pdf_dir output_dir : String)
    (ow pb : Bool) (fs : FS)
    (h : fs.isDir pdf_dir = false ∨ scanDir fs pdf_dir = []) :
    (main doc pdf_dir output_dir ow pb fs).1 = fs
    ∧ (main doc pdf_dir output_dir ow pb fs).2.2 = 1 := by
  unfold main
  rcases h with h | h
  · simp [h]
  · by_cases hd : fs.isDir pdf_dir <;> simp [h, hd]

/-- Witness for C8: running against a missing directory leaves the empty
filesystem empty. -/
theorem c8_preflight_no_side_effects_witness :
    (fs0.isDir "in" = false ∨ scanDir fs0 "in" = [])
    ∧ ((main exDoc "in" "out" false false fs0).1 = fs0
       ∧ (main exDoc "in" "out" false false fs0).2.2 = 1) :=
  ⟨Or.inl rfl,
   c8_preflight_no_side_effects exDoc "in" "out" false false fs0 (Or.inl rfl)⟩

/-- **C9.** The scan matches the literal pattern `*.pdf` case-sensitively:
a file named `Report.PDF` present in the input directory is not discovered
by the scan. -/
theorem c9_glob_case_sensitive (fs : FS) (d : String) :
    isPdfName "Report.PDF" = false
    ∧ (scanDir fs d).contains "Report.PDF" = false := by
  refine ⟨rfl, ?_⟩
  cases hc : (scanDir fs d).contains "Report.PDF" with
  | false => rfl
  | true =>
    have hm : "Report.PDF" ∈ scanDir fs d := List.mem_of_elem_eq_true hc
    have hmf : "Report.PDF" ∈ (fs.listDir d).filter (fun n => isPdfName n) :=
      (List.perm_insertionSort StrLe _).mem_iff.1 hm
    exact absurd (List.mem_filter.1 hmf).2 (by decide)

/-- A one-purpose oracle for the C1 counterexample: every path is a two-page
document whose first page's text itself contains the separator `"\n"`. -/
def c1doc : String → Except String (List String) :=
  fun _ => Except.ok ["a\nb", "c"]

/-- **C1 counterexample.** For the two-page document with chunks `"a\nb"` and
`"c"` and the page-break flag unset, the written file is `"a\nb\nc"` — the
join of the N = 2 chunks — yet the separator `"\n"` occurs 2 times in it,
not N − 1 = 1, because the first chunk's own text contains the separator. -/
theorem c1_counterexample_separator_inside_chunk :
    c1doc "in/x.pdf" = Except.ok ["a\nb", "c"]
    ∧ (extract_text_from_pdf c1doc "in/x.pdf" "out/x.txt" false false fs0).1.readFile "out/x.txt"
        = some "a\nb\nc"
    ∧ (["a\nb", "c"] : List String).length - 1 = 1
    ∧ countOccs "\n".data "a\nb\nc".data = 2 :=
  ⟨rfl, rfl, rfl, by decide⟩

/-- **C1 (amended).** For every PDF whose pages yield the chunks `pages`,
when the conversion is not skipped the string written to the target file
equals those chunks joined with `"\n\n---\n\n"` when the page-break flag is
set and with `"\n"` when it is not, with no trimming or other trailing
processing.  (The separator-occurrence count of the output can exceed
N − 1 when a chunk's own text contains the separator.) -/
theorem c1_output_is_join_of_chunks (doc : String → Except String (List String))
    (pdf_path output_path : String) (pb ow : Bool) (fs : FS) (pages : List String)
    (hdoc : doc pdf_path = Except.ok pages)
    (hns : fs.fileExists output_path = false ∨ ow = true) :
    (extract_text_from_pdf doc pdf_path output_path pb ow fs).1.readFile output_path
      = some (if pb then String.intercalate "\n\n---\n\n" pages
              else String.intercalate "\n" pages) := by
  rw [extract_ok doc pdf_path output_path pb ow fs pages hdoc hns]
  exact FS.readFile_writeFile _ _ _

/-- Witness for C1 (amended): `a.pdf` with pages `"Hello"`, `"World"` and
`--page-break` produces exactly `"Hello\n\n---\n\nWorld"`. -/
theorem c1_output_is_join_of_chunks_witness :
    exDoc "in/a.pdf" = Except.ok ["Hello", "World"]
    ∧ (fs0.fileExists "out/a.txt" = false ∨ false = true)
    ∧ (extract_text_from_pdf exDoc "in/a.pdf" "out/a.txt" true false fs0).1.readFile "out/a.txt"
        = some (if true then String.intercalate "\n\n---\n\n" ["Hello", "World"]
                else String.intercalate "\n" ["Hello", "World"]) :=
  ⟨rfl, Or.inl rfl,
   c1_output_is_join_of_chunks exDoc "in/a.pdf" "out/a.txt" true false fs0
     ["Hello", "World"] rfl (Or.inl rfl)⟩

/-- **C3.** An exception raised while converting one file of the batch is
caught at the driver boundary and reported as an `[error]` message carrying
that file's name, and every later file in the list is still processed: the
run over `l1 ++ p :: l2` equals the run over `l1`, then the failed handling
of `p` (which only created the target's parent directory), then the full run
over `l2`. -/
theorem c3_per_file_error_isolated (doc : String → Except String (List String))
    (od : String) (pb ow : Bool) (fs : FS) (l1 : List String) (p : String)
    (l2 : List String) (e : String)
    (herr : doc p = Except.error e)
    (hns : (processAll doc od pb ow fs l1).1.fileExists (targetPath od p) = false
            ∨ ow = true) :
    processAll doc od pb ow fs (l1 ++ p :: l2)
      = ((processAll doc od pb ow
            ((processAll doc od pb ow fs l1).1.mkdirParents
              (parentOf (targetPath od p))) l2).1,
         (processAll doc od pb ow fs l1).2
           ++ Msg.errorMsg (nameOf p) e
             :: (processAll doc od pb ow
                  ((processAll doc od pb ow fs l1).1.mkdirParents
                    (parentOf (targetPath od p))) l2).2) := by
  rw [processAll_append]
  conv_lhs => rw [processAll]
  rw [step_error doc od pb ow _ p e herr hns]
  simp

/-- Witness for C3: in a three-file batch whose middle file is corrupt, the
corrupt file yields an `[error]` message and the last file is still
converted. -/
theorem c3_per_file_error_isolated_witness :
    exDoc "in/bad.pdf" = Except.error "broken"
    ∧ ((processAll exDoc "out" false false fs0 ["in/a.pdf"]).1.fileExists
          (targetPath "out" "in/bad.pdf") = false
        ∨ false = true)
    ∧ processAll exDoc "out" false false fs0 (["in/a.pdf"] ++ "in/bad.pdf" :: ["in/c.pdf"])
        = ((processAll exDoc "out" false false
              ((processAll exDoc "out" false false fs0 ["in/a.pdf"]).1.mkdirParents
                (parentOf (targetPath "out" "in/bad.pdf"))) ["in/c.pdf"]).1,
           (processAll exDoc "out" false false fs0 ["in/a.pdf"]).2
             ++ Msg.errorMsg (nameOf "in/bad.pdf") "broken"
               :: (processAll exDoc "out" false false
                    ((processAll exDoc "out" false false fs0 ["in/a.pdf"]).1.mkdirParents
                      (parentOf (targetPath "out" "in/bad.pdf"))) ["in/c.pdf"]).2) :=
  ⟨rfl, Or.inl (by decide),
   c3_per_file_error_isolated exDoc "out" false false fs0 ["in/a.pdf"] "in/bad.pdf"
     ["in/c.pdf"] "broken" rfl (Or.inl (by decide))⟩

/-- **C5.** The directory scan returns exactly the files of the input
directory (non-recursively: only its direct entries are considered) whose
name matches `*.pdf`, ordered lexicographically by filename (`StrLe` is
code-point lexicographic order), and when pre-flight passes the driver runs
the batch loop over exactly that sorted list, in order. -/
theorem c5_scan_sorted_and_driven (fs : FS) (d : String)
    (doc : String → Except String (List String)) (od : String) (ow pb : Bool)
    (hdir : fs.isDir d = true) (hne : scanDir fs d ≠ []) :
    List.Sorted StrLe (scanDir fs d)
    ∧ (∀ n, n ∈ scanDir fs d ↔ n ∈ fs.listDir d ∧ isPdfName n = true)
    ∧ main doc d od ow pb fs
        = ((processAll doc od pb ow fs
              ((scanDir fs d).map (fun n => d ++ "/" ++ n))).1,
           (processAll doc od pb ow fs
              ((scanDir fs d).map (fun n => d ++ "/" ++ n))).2,
           0) := by
  refine ⟨List.sorted_insertionSort StrLe _, fun n => ?_, ?_⟩
  · exact (List.perm_insertionSort StrLe _).mem_iff.trans List.mem_filter
  · unfold main
    simp [hdir, hne]

/-- Witness for C5 on a concrete directory listing. -/
theorem c5_scan_sorted_and_driven_witness :
    exFS.isDir "in" = true
    ∧ scanDir exFS "in" ≠ []
    ∧ main exDoc "in" "out" false false exFS
        = ((processAll exDoc "out" false false exFS
              ((scanDir exFS "in").map (fun n => "in" ++ "/" ++ n))).1,
           (processAll exDoc "out" false false exFS
              ((scanDir exFS "in").map (fun n => "in" ++ "/" ++ n))).2,
           0) :=
  ⟨rfl, by decide,
   (c5_scan_sorted_and_driven exFS "in" exDoc "out" false false rfl (by decide)).2.2⟩

/-- **C7.** A page whose extracted text is empty or whitespace-only makes
the conversion emit a warning naming the 1-based page index and the source
filename, without failing (no exception) and without dropping the chunk: the
written output is still the join of the full chunk list. -/
theorem c7_empty_page_warns (doc : String → Except String (List String))
    (pdf_path output_path : String) (pb ow : Bool) (fs : FS)
    (pages : List String) (i : Nat)
    (hdoc : doc pdf_path = Except.ok pages)
    (hns : fs.fileExists output_path = false ∨ ow = true)
    (hi : i < pages.length)
    (hempty : (pages.getD i "").data.all Char.isWhitespace = true) :
    Msg.warn (i + 1) (nameOf pdf_path)
        ∈ (extract_text_from_pdf doc pdf_path output_path pb ow fs).2.1
    ∧ (extract_text_from_pdf doc pdf_path output_path pb ow fs).2.2 = none
    ∧ (extract_text_from_pdf doc pdf_path output_path pb ow fs).1.readFile output_path
        = some (if pb then String.intercalate "\n\n---\n\n" pages
                else String.intercalate "\n" pages) := by
  rw [extract_ok doc pdf_path output_path pb ow fs pages hdoc hns]
  refine ⟨?_, rfl, FS.readFile_writeFile _ _ _⟩
  apply List.mem_append_left
  apply List.mem_filterMap.2
  refine ⟨(i, pages.getD i ""), ?_, ?_⟩
  · rw [List.mk_mem_enum_iff_getElem?]
    rw [List.getD_eq_getElem?_getD, List.getElem?_eq_getElem hi]
    rfl
  · show (if (pages.getD i "").data.all Char.isWhitespace then _ else _) = _
    rw [if_pos hempty]

/-- Witness for C7: page 1 of `b.pdf` is empty; the conversion warns about
`Page 1 in b.pdf` and still writes both chunks. -/
theorem c7_empty_page_warns_witness :
    exDoc "in/b.pdf" = Except.ok ["", "text"]
    ∧ (fs0.fileExists "out/b.txt" = false ∨ false = true)
    ∧ 0 < (["", "text"] : List String).length
    ∧ ((["", "text"] : List String).getD 0 "").data.all Char.isWhitespace = true
    ∧ (Msg.warn (0 + 1) (nameOf "in/b.pdf")
          ∈ (extract_text_from_pdf exDoc "in/b.pdf" "out/b.txt" false false fs0).2.1
       ∧ (extract_text_from_pdf exDoc "in/b.pdf" "out/b.txt" false false fs0).2.2 = none
       ∧ (extract_text_from_pdf exDoc "in/b.pdf" "out/b.txt" false false fs0).1.readFile "out/b.txt"
           = some (if false then String.intercalate "\n\n---\n\n" ["", "text"]
                   else String.intercalate "\n" ["", "text"])) :=
  ⟨rfl, Or.inl rfl, by decide, rfl,
   c7_empty_page_warns exDoc "in/b.pdf" "out/b.txt" false false fs0 ["", "text"] 0
     rfl (Or.inl rfl) (by decide) rfl⟩

/-- **C10.** When the conversion is not skipped and opening or reading the
PDF raises, the exception propagates out of the converter and the target
file has been neither created nor modified — the file table is exactly the
input one — while the target's parent directory has already been created. -/
theorem c10_no_write_on_error (doc : String → Except String (List String))
    (pdf_path output_path : String) (pb ow : Bool) (fs : FS) (e : String)
    (herr : doc pdf_path = Except.error e)
    (hns : fs.fileExists output_path = false ∨ ow = true) :
    (extract_text_from_pdf doc pdf_path output_path pb ow fs).1.files = fs.files
    ∧ (extract_text_from_pdf doc pdf_path output_path pb ow fs).1.readFile output_path
        = fs.readFile output_path
    ∧ (extract_text_from_pdf doc pdf_path output_path pb ow fs).1.dirs
        = (fs.mkdirParents (parentOf output_path)).dirs
    ∧ (extract_text_from_pdf doc pdf_path output_path pb ow fs).2.2 = some e := by
  rw [extract_error doc pdf_path output_path pb ow fs e herr hns]
  exact ⟨FS.files_mkdirParents fs _, FS.readFile_mkdirParents fs _ _, rfl, rfl⟩

/-- Witness for C10: converting the corrupt `bad.pdf` creates `out` but
writes no file and re-raises `"broken"`. -/
theorem c10_no_write_on_error_witness :
    exDoc "in/bad.pdf" = Except.error "broken"
    ∧ (fs0.fileExists "out/bad.txt" = false ∨ false = true)
    ∧ ((extract_text_from_pdf exDoc "in/bad.pdf" "out/bad.txt" false false fs0).1.files
          = fs0.files
       ∧ (extract_text_from_pdf exDoc "in/bad.pdf" "out/bad.txt" false false fs0).1.readFile "out/bad.txt"
           = fs0.readFile "out/bad.txt"
       ∧ (extract_text_from_pdf exDoc "in/bad.pdf" "out/bad.txt" false false fs0).1.dirs
           = (fs0.mkdirParents (parentOf "out/bad.txt")).dirs
       ∧ (extract_text_from_pdf exDoc "in/bad.pdf" "out/bad.txt" false false fs0).2.2
           = some "broken") :=
  ⟨rfl, Or.inl rfl,
   c10_no_write_on_error exDoc "in/bad.pdf" "out/bad.txt" false false fs0 "broken"
     rfl (Or.inl rfl)⟩

end PdfToText
